import Mathlib

/-!
Shallow embedding of the gphotofs FUSE adapter (`gphotofs.c`, current revision)
in Lean 4.  Device calls (libgphoto2) are modelled by a `Device` record of
response functions, and every issued device call is recorded in a trace so
that properties about which calls an operation performs can be stated.
Hash tables (`GHashTable` with string keys, unique keys) are modelled as
association lists.  Machine integers: result codes and errno values are `Int`,
sizes and offsets are `Nat` (the C code uses them as non-negative counts).
-/

set_option autoImplicit false

namespace Gphotofs

/-! ## libgphoto2 result codes (gphoto2-port-result.h / gphoto2-result.h) -/

def GP_OK : Int := 0
def GP_ERROR : Int := -1
def GP_ERROR_BAD_PARAMETERS : Int := -2
def GP_ERROR_NO_MEMORY : Int := -3
def GP_ERROR_LIBRARY : Int := -4
def GP_ERROR_UNKNOWN_PORT : Int := -5
def GP_ERROR_NOT_SUPPORTED : Int := -6
def GP_ERROR_IO : Int := -7
def GP_ERROR_FIXED_LIMIT_EXCEEDED : Int := -8
def GP_ERROR_TIMEOUT : Int := -10
def GP_ERROR_IO_SUPPORTED_SERIAL : Int := -20
def GP_ERROR_IO_SUPPORTED_USB : Int := -21
def GP_ERROR_IO_INIT : Int := -31
def GP_ERROR_IO_READ : Int := -34
def GP_ERROR_IO_WRITE : Int := -35
def GP_ERROR_IO_UPDATE : Int := -37
def GP_ERROR_IO_SERIAL_SPEED : Int := -41
def GP_ERROR_IO_USB_CLEAR_HALT : Int := -51
def GP_ERROR_IO_USB_FIND : Int := -52
def GP_ERROR_IO_USB_CLAIM : Int := -53
def GP_ERROR_IO_LOCK : Int := -60
def GP_ERROR_HAL : Int := -70
def GP_ERROR_CORRUPTED_DATA : Int := -102
def GP_ERROR_FILE_EXISTS : Int := -103
def GP_ERROR_MODEL_NOT_FOUND : Int := -105
def GP_ERROR_DIRECTORY_NOT_FOUND : Int := -107
def GP_ERROR_FILE_NOT_FOUND : Int := -108
def GP_ERROR_DIRECTORY_EXISTS : Int := -109
def GP_ERROR_CAMERA_BUSY : Int := -110
def GP_ERROR_PATH_NOT_ABSOLUTE : Int := -111
def GP_ERROR_CANCEL : Int := -112
def GP_ERROR_CAMERA_ERROR : Int := -113
def GP_ERROR_OS_FAILURE : Int := -114
def GP_ERROR_NO_SPACE : Int := -115

/-! ## errno values (Linux) -/

def EPERM : Int := 1
def ENOENT : Int := 2
def EIO : Int := 5
def ENXIO : Int := 6
def ENOMEM : Int := 12
def EBUSY : Int := 16
def EEXIST : Int := 17
def ENOTDIR : Int := 20
def EINVAL : Int := 22
def ENOSPC : Int := 28
def EPIPE : Int := 32
def ENOSYS : Int := 38
def EPROTO : Int := 71
def EPROTONOSUPPORT : Int := 93
def ETIMEDOUT : Int := 110
def ECANCELED : Int := 125

/-! ## gpresultToErrno

The C function is a `switch` over the device result code; each `case` label
is one row of the table below, and the `default` arm returns `-EINVAL`.
-/

def gpErrnoTable : List (Int × Int) :=
  [ (GP_OK, 0),
    (GP_ERROR, -EPROTO),
    (GP_ERROR_BAD_PARAMETERS, -EINVAL),
    (GP_ERROR_NO_MEMORY, -ENOMEM),
    (GP_ERROR_LIBRARY, -ENOSYS),
    (GP_ERROR_UNKNOWN_PORT, - ENXIO),
    (GP_ERROR_NOT_SUPPORTED, -EPROTONOSUPPORT),
    (GP_ERROR_TIMEOUT, -ETIMEDOUT),
    ( GP_ERROR_IO, - EIO),
    (GP_ERROR_IO_SUPPORTED_SERIAL, - EIO),
    (GP_ERROR_IO_SUPPORTED_USB, - EIO),
    (GP_ERROR_IO_INIT, - EIO),
    (GP_ERROR_IO_READ, - EIO),
    (GP_ERROR_IO_WRITE, - EIO),
    (GP_ERROR_IO_UPDATE, - EIO),
    (GP_ERROR_IO_SERIAL_SPEED, - EIO),
    (GP_ERROR_IO_USB_CLEAR_HALT, - EIO),
    (GP_ERROR_IO_USB_FIND, - ENXIO),
    (GP_ERROR_IO_USB_CLAIM, - EIO),
    (GP_ERROR_IO_LOCK, - EIO),
    (GP_ERROR_CAMERA_BUSY, -EBUSY),
    (GP_ERROR_FILE_NOT_FOUND, -ENOENT),
    (GP_ERROR_DIRECTORY_NOT_FOUND, -ENOENT),
    (GP_ERROR_FILE_EXISTS, -EEXIST),
    (GP_ERROR_DIRECTORY_EXISTS, -EEXIST),
    (GP_ERROR_PATH_NOT_ABSOLUTE, -ENOTDIR),
    (GP_ERROR_CORRUPTED_DATA, - EIO),
    (GP_ERROR_CANCEL, -ECANCELED),
    (GP_ERROR_MODEL_NOT_FOUND, - ENXIO),
    (GP_ERROR_CAMERA_ERROR, -EPERM),
    (GP_ERROR_OS_FAILURE, -EPIPE) ]

/-- The set of result codes that appear as a `case` label in the switch. -/
def gpMappedCodes : List Int := gpErrnoTable.map (fun row => row.1)

def gpresultToErrno (result : Int) : Int :=
  match gpErrnoTable.find? (fun row => row.1 = result) with
  | some row => row.2
  | none => -EINVAL

/-! ## glib path helpers -/

def g_path_get_dirname (p : String) : String :=
  let r := (p.toList.reverse.dropWhile (fun c => c ≠ '/')).drop 1
  if r = [] then "/" else String.mk r.reverse

def g_path_get_basename (p : String) : String :=
  let r := p.toList.reverse.takeWhile (fun c => c ≠ '/')
  if r = [] then "/" else String.mk r.reverse

def g_build_filename (path name : String) : String :=
  if path.toList.getLast? = some '/' then path ++ name else path ++ "/" ++ name

/-! ## GHashTable with string keys, modelled as an association list.

`g_hash_table_replace` / `g_hash_table_remove` / `g_hash_table_lookup`.
Keys are unique in a `GHashTable`; removal removes every binding of the key,
which coincides with GHashTable behaviour on lists with unique keys.
-/

def tlookup {α : Type} (t : List (String × α)) (k : String) : Option α :=
  match t with
  | [] => none
  | (k2, v) :: rest => if k2 = k then some v else tlookup rest k

def tremove {α : Type} (t : List (String × α)) (k : String) : List (String × α) :=
  match t with
  | [] => []
  | (k2, v2) :: rest => if k2 = k then tremove rest k else (k2, v2) :: tremove rest k

def treplace {α : Type} (t : List (String × α)) (k : String) (v : α) :
    List (String × α) :=
  (k, v) :: tremove t k

/-! ## Data model: stat records, camera file info, the open-file table -/

def S_IFDIR : Nat := 16384
def S_IFREG : Nat := 32768

/-- The subset of `struct stat` fields the adapter fills (`g_new0` zeroes the
rest; only these fields are ever copied back out by `gphotofs_getattr`). -/
structure StatRec where
  st_mode : Nat
  st_nlink : Nat
  st_uid : Nat
  st_gid : Nat
  st_size : Nat
  st_blocks : Nat
  st_mtime : Int
  deriving Repr, DecidableEq

/-- The fields of `CameraFileInfo` consumed by `gphotofs_readdir`. -/
structure CameraFileInfo where
  hasPermissions : Bool
  permDelete : Bool
  size : Nat
  mtime : Int
  deriving Repr, DecidableEq

/-- `struct OpenFile`.  `file` is the lazily fetched whole-file contents of
the `CameraFile` (`none` until the read fallback fetches it); `buf` is the
write buffer whose length equals the `size` field.  The C `realloc` leaves
newly grown bytes unspecified; the model zero-fills them (no claim depends
on gap contents). -/
structure OpenFile where
  file : Option (List Nat)
  count : Nat
  buf : List Nat
  size : Nat
  writing : Bool
  destdir : String
  destname : String
  deriving Repr, DecidableEq

/-- The four `GHashTable`s of `struct GPCtx` that make up the adapter state:
metadata cache (`dirs`, `files`) and the two open-file tables. -/
structure FsState where
  dirs : List (String × StatRec)
  files : List (String × StatRec)
  reads : List (String × OpenFile)
  writes : List (String × OpenFile)
  deriving Repr, DecidableEq

def emptyState : FsState := ⟨[], [], [], []⟩

/-! ## The Device collaborator

Each libgphoto2 entry point the adapter calls is one field; `events` is the
queue drained by `gp_camera_wait_for_event` (an `Except.error e` step is a
call returning `e ≠ GP_OK`; the queue conceptually ends with a timeout).
Every issued call is recorded as a `DevCall` in the operation trace. -/

inductive EvType where
  | timeout
  | unknown
  | captureComplete
  | fileAdded (folder : String)
  | folderAdded (folder : String)
  deriving Repr, DecidableEq

structure Device where
  uid : Nat
  gid : Nat
  events : List (Except Int EvType)
  listFolders : String → Except Int (List String)
  listFiles : String → Except Int (List String)
  getInfo : String → String → Except Int CameraFileInfo
  fileRead : String → String → Nat → Nat → Except Int (List Nat)
  fileGet : String → String → Except Int (List Nat)
  putFile : String → String → List Nat → Int
  deleteFile : String → String → Int
  makeDir : String → String → Int
  removeDir : String → String → Int

inductive DevCall where
  | waitEvent
  | listFolders (path : String)
  | listFiles (path : String)
  | getInfo (folder name : String)
  | fileRead (folder name : String) (offset size : Nat)
  | fileGet (folder name : String)
  | putFile (folder name : String) (data : List Nat)
  | deleteFile (folder name : String)
  | makeDir (folder name : String)
  | removeDir (folder name : String)
  deriving Repr, DecidableEq

/-! ## gphotofs_readdir (cache-population core)

`readdirCore` is the body of `gphotofs_readdir` after its event check: list
child folders, insert a directory stat per child, list child files, fetch
per-file info and insert a file stat per child; a failing device call
translates the error and keeps partial inserts. -/

def dirStatOf (d : Device) : StatRec :=
  { st_mode := S_IFDIR ||| 493, st_nlink := 2, st_uid := d.uid, st_gid := d.gid,
    st_size := 0, st_blocks := 0, st_mtime := 0 }

def fileStatOf (d : Device) (info : CameraFileInfo) : StatRec :=
  { st_mode := S_IFREG |||
      (if info.hasPermissions then (if info.permDelete then 420 else 292) else 420),
    st_nlink := 1, st_uid := d.uid, st_gid := d.gid, st_size := info.size,
    st_blocks := info.size / 512 + (if info.size % 512 > 0 then 1 else 0),
    st_mtime := info.mtime }

def insertDirs (d : Device) (path : String) (names : List String) (s : FsState) : FsState :=
  match names with
  | [] => s
  | n :: rest =>
    insertDirs d path rest
      { s with dirs := treplace s.dirs (g_build_filename path n) (dirStatOf d) }

def insertFilesLoop (d : Device) (path : String) (names : List String) (s : FsState) :
    Int × FsState × List DevCall :=
  match names with
  | [] => (0, s, [])
  | n :: rest =>
    match d.getInfo path n with
    | Except.error e => (gpresultToErrno e, s, [DevCall.getInfo path n])
    | Except.ok info =>
      let s1 := { s with files := treplace s.files (g_build_filename path n) (fileStatOf d info) }
      let r := insertFilesLoop d path rest s1
      (r.1, r.2.1, DevCall.getInfo path n :: r.2.2)

def readdirCore (d : Device) (path : String) (s : FsState) :
    Int × FsState × List DevCall :=
  match d.listFolders path with
  | Except.error e => (gpresultToErrno e, s, [DevCall.listFolders path])
  | Except.ok dnames =>
    let s1 := insertDirs d path dnames s
    match d.listFiles path with
    | Except.error e =>
      (gpresultToErrno e, s1, [DevCall.listFolders path, DevCall.listFiles path])
    | Except.ok fnames =>
      let r := insertFilesLoop d path fnames s1
      (r.1, r.2.1, DevCall.listFolders path :: DevCall.listFiles path :: r.2.2)

/-! ## gphotofs_check_events

Drains the event queue: a failing `gp_camera_wait_for_event` ends the drain
with its result; a file/folder-added event re-runs the readdir core on the
affected folder (the static `ineventcheck` guard makes the nested
`gphotofs_check_events` of that readdir a no-op, so the core is what runs);
a timeout ends the drain with `GP_OK`. -/

def drainEvents (d : Device) (evs : List (Except Int EvType)) (s : FsState) :
    Int × FsState × List DevCall :=
  match evs with
  | [] => (GP_OK, s, [])
  | Except.error e :: _ => (e, s, [DevCall.waitEvent])
  | Except.ok ev :: rest =>
    match ev with
    | EvType.timeout => (GP_OK, s, [DevCall.waitEvent])
    | EvType.fileAdded f =>
      let r1 := readdirCore d f s
      let r2 := drainEvents d rest r1.2.1
      (r2.1, r2.2.1, DevCall.waitEvent :: (r1.2.2 ++ r2.2.2))
    | EvType.folderAdded f =>
      let r1 := readdirCore d f s
      let r2 := drainEvents d rest r1.2.1
      (r2.1, r2.2.1, DevCall.waitEvent :: (r1.2.2 ++ r2.2.2))
    | _ =>
      let r2 := drainEvents d rest s
      (r2.1, r2.2.1, DevCall.waitEvent :: r2.2.2)

def gphotofs_check_events (d : Device) (s : FsState) : Int × FsState × List DevCall :=
  drainEvents d d.events s

/-- The two event-poll results `gphotofs_readdir`, `gphotofs_getattr`,
`gphotofs_open` and `gphotofs_statfs` treat as fatal. -/
def fatalEvent (r : Int) : Bool :=
  r = GP_ERROR_IO_USB_FIND || r = GP_ERROR_MODEL_NOT_FOUND

def gphotofs_readdir (d : Device) (path : String) (s : FsState) :
    Int × FsState × List DevCall :=
  let e := gphotofs_check_events d s
  if fatalEvent e.1 then (gpresultToErrno e.1, e.2.1, e.2.2)
  else
    let r := readdirCore d path e.2.1
    (r.1, r.2.1, e.2.2 ++ r.2.2)

/-! ## gphotofs_getattr -/

def rootStat (d : Device) : StatRec :=
  { st_mode := S_IFDIR ||| 493, st_nlink := 2, st_uid := d.uid, st_gid := d.gid,
    st_size := 0, st_blocks := 0, st_mtime := 0 }

/-- The `for (i = 2; i > 0; i--)` retry loop of `gphotofs_getattr`: check the
file cache then the directory cache; on a miss run readdir on the parent and
go round again; when the fuel runs out report `-ENOENT`. -/
def getattrLoop (d : Device) (path : String) (fuel : Nat) (s : FsState) :
    Int × Option StatRec × FsState × List DevCall :=
  match fuel with
  | 0 => (-ENOENT, none, s, [])
  | Nat.succ i =>
    match (match tlookup s.files path with
           | some v => some v
           | none => tlookup s.dirs path) with
    | some st => (0, some st, s, [])
    | none =>
      let dir := g_path_get_dirname path
      let r := gphotofs_readdir d dir s
      if r.1 ≠ 0 then (r.1, none, r.2.1, r.2.2)
      else
        let r2 := getattrLoop d path i r.2.1
        (r2.1, r2.2.1, r2.2.2.1, r.2.2 ++ r2.2.2.2)

def gphotofs_getattr (d : Device) (path : String) (s : FsState) :
    Int × Option StatRec × FsState × List DevCall :=
  let e := gphotofs_check_events d s
  if fatalEvent e.1 then (gpresultToErrno e.1, none, e.2.1, e.2.2)
  else if path = "/" then (0, some (rootStat d), e.2.1, e.2.2)
  else
    let r := getattrLoop d path 2 e.2.1
    (r.1, r.2.1, r.2.2.1, e.2.2 ++ r.2.2.2)

/-! ## gphotofs_open

`fi->flags & O_ACCMODE` distinguishes the three access modes.  Read-only
open is lazy (no device call); write-only open allocates an empty write
buffer (`malloc(1)` with the `size` field 0; allocation failure returning
`-1` is not modelled).  Any other mode fails with `-EINVAL`. -/

inductive AccMode where
  | rdonly
  | wronly
  | rdwr
  deriving Repr, DecidableEq

def gphotofs_open (d : Device) (path : String) (mode : AccMode) (s : FsState) :
    Int × FsState × List DevCall :=
  let e := gphotofs_check_events d s
  if fatalEvent e.1 then (gpresultToErrno e.1, e.2.1, e.2.2)
  else
    let s1 := e.2.1
    match mode with
    | AccMode.rdonly =>
      match tlookup s1.reads path with
      | none =>
        let nf : OpenFile :=
          { file := none, count := 1, buf := [], size := 0, writing := false,
            destdir := g_path_get_dirname path, destname := g_path_get_basename path }
        (0, { s1 with reads := treplace s1.reads path nf }, e.2.2)
      | some of =>
        (0, { s1 with reads := treplace s1.reads path { of with count := of.count + 1 } }, e.2.2)
    | AccMode.wronly =>
      match tlookup s1.writes path with
      | none =>
        let nf : OpenFile :=
          { file := none, count := 1, buf := [], size := 0, writing := true,
            destdir := g_path_get_dirname path, destname := g_path_get_basename path }
        (0, { s1 with writes := treplace s1.writes path nf }, e.2.2)
      | some of =>
        (0, { s1 with writes := treplace s1.writes path { of with count := of.count + 1 } }, e.2.2)
    | AccMode.rdwr => (-EINVAL, s1, e.2.2)

/-! ## gphotofs_read

Result is `(ret, bytes, state, trace)`; `none` models the null-pointer
dereference when no read handle exists (FUSE guarantees open-before-read).
The ranged `gp_camera_file_read` is attempted first; on
`GP_ERROR_NOT_SUPPORTED` it falls back to fetching the whole file once into
the handle (the result of `gp_camera_file_get` is ignored by the C code: on
failure the handle keeps the freshly allocated empty `CameraFile`, which
`gp_file_get_data_and_size` reads as size 0) and slicing the buffer. -/

def gphotofs_read (d : Device) (path : String) (size offset : Nat) (s : FsState) :
    Option (Int × List Nat × FsState × List DevCall) :=
  match tlookup s.reads path with
  | none => none
  | some of =>
    let rangedCall := DevCall.fileRead of.destdir of.destname offset size
    match d.fileRead of.destdir of.destname offset size with
    | Except.ok bytes => some ((bytes.length : Int), bytes, s, [rangedCall])
    | Except.error e =>
      if e ≠ GP_ERROR_NOT_SUPPORTED then
        some (gpresultToErrno e, [], s, [rangedCall])
      else
        let fetch : OpenFile × FsState × List DevCall :=
          match of.file with
          | some _ => (of, s, [])
          | none =>
            match d.fileGet of.destdir of.destname with
            | Except.ok content =>
              let of2 := { of with file := some content }
              (of2, { s with reads := treplace s.reads path of2 },
               [DevCall.fileGet of.destdir of.destname])
            | Except.error _ =>
              let of2 := { of with file := some [] }
              (of2, { s with reads := treplace s.reads path of2 },
               [DevCall.fileGet of.destdir of.destname])
        let content := fetch.1.file.getD []
        if offset < content.length then
          let size2 := if offset + size > content.length then content.length - offset else size
          some ((size2 : Int), (content.drop offset).take size2, fetch.2.1,
                rangedCall :: fetch.2.2)
        else
          some (0, [], fetch.2.1, rangedCall :: fetch.2.2)

/-! ## gphotofs_write -/

def listSet (buf : List Nat) (offset : Nat) (w : List Nat) : List Nat :=
  buf.take offset ++ w ++ buf.drop (offset + w.length)

def gphotofs_write (d : Device) (path : String) (wbuf : List Nat) (offset : Nat)
    (s : FsState) : Int × FsState × List DevCall :=
  match tlookup s.writes path with
  | none => (-1, s, [])
  | some of =>
    let size := wbuf.length
    let of1 :=
      if offset + size > of.size then
        { of with size := offset + size,
                  buf := of.buf ++ List.replicate (offset + size - of.buf.length) 0 }
      else of
    let of2 := { of1 with buf := listSet of1.buf offset wbuf }
    ((size : Int), { s with writes := treplace s.writes path of2 }, [])

/-! ## gphotofs_mkdir / gphotofs_rmdir

Both call `gphotofs_check_events()` and discard its result, then issue their
device call; failures are translated, success mirrors the change into the
directory cache. -/

def gphotofs_mkdir (d : Device) (path : String) (s : FsState) :
    Int × FsState × List DevCall :=
  let dir := g_path_get_dirname path
  let file := g_path_get_basename path
  let e := gphotofs_check_events d s
  let r := d.makeDir dir file
  if r ≠ 0 then (gpresultToErrno r, e.2.1, e.2.2 ++ [DevCall.makeDir dir file])
  else
    let st : StatRec :=
      { st_mode := S_IFDIR ||| 365, st_nlink := 2, st_uid := d.uid, st_gid := d.gid,
        st_size := 0, st_blocks := 0, st_mtime := 0 }
    (0, { e.2.1 with dirs := treplace e.2.1.dirs path st },
     e.2.2 ++ [DevCall.makeDir dir file])

def gphotofs_rmdir (d : Device) (path : String) (s : FsState) :
    Int × FsState × List DevCall :=
  let dir := g_path_get_dirname path
  let file := g_path_get_basename path
  let e := gphotofs_check_events d s
  let r := d.removeDir dir file
  if r ≠ 0 then (gpresultToErrno r, e.2.1, e.2.2 ++ [DevCall.removeDir dir file])
  else
    (0, { e.2.1 with dirs := tremove e.2.1.dirs path },
     e.2.2 ++ [DevCall.removeDir dir file])

/-! ## gphotofs_mknod

Uploads a one-byte placeholder (the byte 99, the character c) via
`gp_camera_folder_put_file`, discards the result of that call, touches no
cache mapping, and returns 0 unconditionally.  (`gp_file_set_data_and_size`
on the fresh `CameraFile` can only fail on allocation failure, which is not
modelled.) -/

def gphotofs_mknod (d : Device) (path : String) (s : FsState) :
    Int × FsState × List DevCall :=
  let dir := g_path_get_dirname path
  let file := g_path_get_basename path
  let e := gphotofs_check_events d s
  let _ := d.putFile dir file [99]
  (0, e.2.1, e.2.2 ++ [DevCall.putFile dir file [99]])

/-! ## gphotofs_flush

Looks up the write table, polls events (result discarded), and for a
writing handle commits the buffer: a best-effort `gp_camera_file_delete`
whose result is discarded, then `gp_camera_folder_put_file` of the whole
buffer; a failing put reports `-ENOSPC`.  (The `malloc`/
`gp_file_set_data_and_size` failure paths returning `-ENOMEM` / `-1` are
allocation failures, not modelled.) -/

def gphotofs_flush (d : Device) (path : String) (s : FsState) :
    Int × FsState × List DevCall :=
  match tlookup s.writes path with
  | none =>
    let e := gphotofs_check_events d s
    (0, e.2.1, e.2.2)
  | some of =>
    let e := gphotofs_check_events d s
    if of.writing then
      let _ := d.deleteFile of.destdir of.destname
      let r := d.putFile of.destdir of.destname of.buf
      let commit := [DevCall.deleteFile of.destdir of.destname,
                     DevCall.putFile of.destdir of.destname of.buf]
      if r < 0 then (-ENOSPC, e.2.1, e.2.2 ++ commit)
      else (0, e.2.1, e.2.2 ++ commit)
    else (0, e.2.1, e.2.2)

def gphotofs_fsync (d : Device) (path : String) (s : FsState) :
    Int × FsState × List DevCall :=
  gphotofs_flush d path s

/-! ## gphotofs_release

No event poll and no device call.  The handle is looked up in the read
table first, then the write table; its count is decremented in place, and
on reaching zero the entry is removed from the write table if its `writing`
flag is set, from the read table otherwise. -/

def releaseFound (path : String) (of : OpenFile) (inReads : Bool) (s : FsState) :
    Int × FsState × List DevCall :=
  let c := of.count - 1
  let of1 := { of with count := c }
  let s1 :=
    if inReads then { s with reads := treplace s.reads path of1 }
    else { s with writes := treplace s.writes path of1 }
  if c = 0 then
    if of1.writing then (0, { s1 with writes := tremove s1.writes path }, [])
    else (0, { s1 with reads := tremove s1.reads path }, [])
  else (0, s1, [])

def gphotofs_release (d : Device) (path : String) (s : FsState) :
    Int × FsState × List DevCall :=
  match tlookup s.reads path with
  | some of => releaseFound path of true s
  | none =>
    match tlookup s.writes path with
    | some of => releaseFound path of false s
    | none => (0, s, [])

/-! ## gphotofs_unlink

Polls events (result discarded), refuses with `-EBUSY` while a read handle
for the path exists (the write table is not consulted), otherwise issues
the device delete; failure is translated, success removes the path from the
file cache. -/

def gphotofs_unlink (d : Device) (path : String) (s : FsState) :
    Int × FsState × List DevCall :=
  let dir := g_path_get_dirname path
  let file := g_path_get_basename path
  let e := gphotofs_check_events d s
  match tlookup e.2.1.reads path with
  | some _ => (-EBUSY, e.2.1, e.2.2)
  | none =>
    let r := d.deleteFile dir file
    if r ≠ 0 then (gpresultToErrno r, e.2.1, e.2.2 ++ [DevCall.deleteFile dir file])
    else
      (0, { e.2.1 with files := tremove e.2.1.files path },
       e.2.2 ++ [DevCall.deleteFile dir file])

/-! ## gphotofs_chmod / gphotofs_chown -/

def gphotofs_chmod (d : Device) (path : String) (mode : Nat) (s : FsState) :
    Int × FsState × List DevCall :=
  (0, s, [])

def gphotofs_chown (d : Device) (path : String) (uid gid : Nat) (s : FsState) :
    Int × FsState × List DevCall :=
  (0, s, [])

/-! ## Concrete devices and states used by the closed theorems -/

/-- An event queue whose first poll reports a timeout: the drain is a single
`gp_camera_wait_for_event` call returning `GP_OK` with no cache effect. -/
def quietEvents : List (Except Int EvType) := [Except.ok EvType.timeout]

/-- A quiet, fully functional device: the event poll reports a timeout at
once, listings are empty, ranged read is unsupported, mutations succeed. -/
def devNull : Device :=
  { uid := 1000, gid := 1000, events := quietEvents,
    listFolders := fun _ => Except.ok [],
    listFiles := fun _ => Except.ok [],
    getInfo := fun _ _ => Except.error GP_ERROR_FILE_NOT_FOUND,
    fileRead := fun _ _ _ _ => Except.error GP_ERROR_NOT_SUPPORTED,
    fileGet := fun _ _ => Except.ok [],
    putFile := fun _ _ _ => GP_OK,
    deleteFile := fun _ _ => GP_OK,
    makeDir := fun _ _ => GP_OK,
    removeDir := fun _ _ => GP_OK }

/-- Like `devNull`, but the root listing reports the one file `a.jpg` whose
info records size 1 — the device after `mknod` has uploaded its one-byte
placeholder. -/
def devSeed : Device :=
  { devNull with
      listFiles := fun p => if p = "/" then Except.ok ["a.jpg"] else Except.ok [],
      getInfo := fun p n =>
        if p = "/" ∧ n = "a.jpg" then
          Except.ok { hasPermissions := false, permDelete := false, size := 1, mtime := 0 }
        else Except.error GP_ERROR_FILE_NOT_FOUND }

/-- Like `devNull`, but every `gp_camera_folder_put_file` fails with
`GP_ERROR`. -/
def devPutFail : Device := { devNull with putFile := fun _ _ _ => GP_ERROR }

/-- Like `devNull`, but the event poll fails with `GP_ERROR_IO_USB_FIND`
(device unreachable), a connectivity-fatal condition. -/
def devFatal : Device := { devNull with events := [Except.error GP_ERROR_IO_USB_FIND] }

/-- A write handle at reference count 1 holding one buffered byte. -/
def wOpen : OpenFile :=
  { file := none, count := 1, buf := [7], size := 1, writing := true,
    destdir := "/", destname := "a.jpg" }

/-- A state whose only entry is the write handle `wOpen` for `/a.jpg`. -/
def stC1 : FsState := { dirs := [], files := [], reads := [], writes := [("/a.jpg", wOpen)] }

/-- A read handle whose whole-file fallback buffer has been fetched. -/
def ofRead : OpenFile :=
  { file := some [1, 2, 3, 4], count := 1, buf := [], size := 0, writing := false,
    destdir := "/", destname := "a.jpg" }

/-- A state whose only entry is the read handle `ofRead` for `/a.jpg`. -/
def stRead : FsState := { dirs := [], files := [], reads := [("/a.jpg", ofRead)], writes := [] }

/-! ## Helper lemmas -/

theorem tlookup_tremove {α : Type} (t : List (String × α)) (k q : String) :
    tlookup (tremove t k) q = if k = q then none else tlookup t q := by
  induction t with
  | nil => simp [tremove, tlookup]
  | cons kv rest ih =>
    obtain ⟨k2, v2⟩ := kv
    by_cases hkq : k = q
    · subst hkq
      by_cases h2 : k2 = k
      · simpa [tremove, tlookup, h2] using ih
      · simpa [tremove, tlookup, h2] using ih
    · by_cases h2 : k2 = k
      · have h2q : ¬k2 = q := by rw [h2]; exact hkq
        simp only [tremove, tlookup, if_pos h2, ih, if_neg hkq, if_neg h2q]
      · by_cases h3 : k2 = q
        · have hqk : ¬q = k := fun h => h2 (h3.trans h)
          simp [tremove, tlookup, h2, h3, hkq, hqk]
        · simp only [tremove, tlookup, if_neg h2, if_neg h3, ih, if_neg hkq]

theorem tlookup_treplace {α : Type} (t : List (String × α)) (k q : String) (v : α) :
    tlookup (treplace t k v) q = if k = q then some v else tlookup t q := by
  by_cases h : k = q
  · simp [treplace, tlookup, h]
  · simp [treplace, tlookup, h, tlookup_tremove]

theorem checkEvents_quiet (d : Device) (s : FsState) (h : d.events = quietEvents) :
    gphotofs_check_events d s = (GP_OK, s, [DevCall.waitEvent]) := by
  simp [gphotofs_check_events, h, quietEvents, drainEvents]

theorem fatalEvent_gp_ok : fatalEvent GP_OK = false := by decide

theorem insertDirs_files (d : Device) (path : String) (names : List String) (s : FsState) :
    (insertDirs d path names s).files = s.files := by
  induction names generalizing s with
  | nil => rfl
  | cons n rest ih => simp [insertDirs, ih]

theorem insertDirs_reads (d : Device) (path : String) (names : List String) (s : FsState) :
    (insertDirs d path names s).reads = s.reads := by
  induction names generalizing s with
  | nil => rfl
  | cons n rest ih => simp [insertDirs, ih]

theorem insertDirs_writes (d : Device) (path : String) (names : List String) (s : FsState) :
    (insertDirs d path names s).writes = s.writes := by
  induction names generalizing s with
  | nil => rfl
  | cons n rest ih => simp [insertDirs, ih]

theorem insertDirs_dirs_miss (d : Device) (path : String) (names : List String)
    (s : FsState) (q : String) (h : ∀ n ∈ names, g_build_filename path n ≠ q) :
    tlookup (insertDirs d path names s).dirs q = tlookup s.dirs q := by
  induction names generalizing s with
  | nil => rfl
  | cons n rest ih =>
    have hn : g_build_filename path n ≠ q := h n (List.mem_cons_self n rest)
    have hrest : ∀ m ∈ rest, g_build_filename path m ≠ q :=
      fun m hm => h m (List.mem_cons_of_mem n hm)
    simp only [insertDirs]
    rw [ih _ hrest]
    simp [tlookup_treplace, hn]

theorem insertFilesLoop_dirs (d : Device) (path : String) (names : List String)
    (s : FsState) : (insertFilesLoop d path names s).2.1.dirs = s.dirs := by
  induction names generalizing s with
  | nil => rfl
  | cons n rest ih =>
    simp only [insertFilesLoop]
    cases d.getInfo path n with
    | error e => rfl
    | ok info => simp [ih]

theorem insertFilesLoop_reads (d : Device) (path : String) (names : List String)
    (s : FsState) : (insertFilesLoop d path names s).2.1.reads = s.reads := by
  induction names generalizing s with
  | nil => rfl
  | cons n rest ih =>
    simp only [insertFilesLoop]
    cases d.getInfo path n with
    | error e => rfl
    | ok info => simp [ih]

theorem insertFilesLoop_writes (d : Device) (path : String) (names : List String)
    (s : FsState) : (insertFilesLoop d path names s).2.1.writes = s.writes := by
  induction names generalizing s with
  | nil => rfl
  | cons n rest ih =>
    simp only [insertFilesLoop]
    cases d.getInfo path n with
    | error e => rfl
    | ok info => simp [ih]

theorem insertFilesLoop_files_miss (d : Device) (path : String) (names : List String)
    (s : FsState) (q : String) (h : ∀ n ∈ names, g_build_filename path n ≠ q) :
    tlookup (insertFilesLoop d path names s).2.1.files q = tlookup s.files q := by
  induction names generalizing s with
  | nil => rfl
  | cons n rest ih =>
    have hn : g_build_filename path n ≠ q := h n (List.mem_cons_self n rest)
    have hrest : ∀ m ∈ rest, g_build_filename path m ≠ q :=
      fun m hm => h m (List.mem_cons_of_mem n hm)
    simp only [insertFilesLoop]
    cases d.getInfo path n with
    | error e => rfl
    | ok info =>
      simp only []
      rw [ih _ hrest]
      simp [tlookup_treplace, hn]

theorem insertFilesLoop_ret_ok (d : Device) (path : String) (names : List String)
    (s : FsState) (h : ∀ n ∈ names, ∃ i, d.getInfo path n = Except.ok i) :
    (insertFilesLoop d path names s).1 = 0 := by
  induction names generalizing s with
  | nil => rfl
  | cons n rest ih =>
    obtain ⟨i, hi⟩ := h n (List.mem_cons_self n rest)
    have hrest : ∀ m ∈ rest, ∃ j, d.getInfo path m = Except.ok j :=
      fun m hm => h m (List.mem_cons_of_mem n hm)
    simp [insertFilesLoop, hi, ih _ hrest]

theorem insertFilesLoop_trace_getInfo (d : Device) (path : String) (names : List String)
    (s : FsState) :
    ∀ c ∈ (insertFilesLoop d path names s).2.2, ∃ n, c = DevCall.getInfo path n := by
  induction names generalizing s with
  | nil => intro c hc; simp [insertFilesLoop] at hc
  | cons n rest ih =>
    intro c hc
    simp only [insertFilesLoop] at hc
    cases hgi : d.getInfo path n with
    | error e =>
      rw [hgi] at hc
      simp at hc
      exact ⟨n, hc⟩
    | ok info =>
      rw [hgi] at hc
      simp at hc
      rcases hc with hc | hc
      · exact ⟨n, hc⟩
      · exact ih _ c hc

/-- A successful readdir core run whose device listings do not mention the
key `q`: returns 0, leaves the lookups of `q` in both mappings unchanged,
and its trace contains no further `listFolders` call beyond the one it
issues itself. -/
theorem readdirCore_miss (d : Device) (p : String) (s : FsState) (q : String)
    (dnames fnames : List String)
    (hdl : d.listFolders p = Except.ok dnames)
    (hfl : d.listFiles p = Except.ok fnames)
    (hdn : ∀ n ∈ dnames, g_build_filename p n ≠ q)
    (hfn : ∀ n ∈ fnames, g_build_filename p n ≠ q)
    (hinfo : ∀ n ∈ fnames, ∃ i, d.getInfo p n = Except.ok i) :
    (readdirCore d p s).1 = 0 ∧
    tlookup (readdirCore d p s).2.1.dirs q = tlookup s.dirs q ∧
    tlookup (readdirCore d p s).2.1.files q = tlookup s.files q := by
  simp only [readdirCore, hdl, hfl]
  refine ⟨insertFilesLoop_ret_ok d p fnames _ hinfo, ?_, ?_⟩
  · rw [insertFilesLoop_dirs]
    exact insertDirs_dirs_miss d p dnames s q hdn
  · rw [insertFilesLoop_files_miss d p fnames _ q hfn]
    rw [insertDirs_files]

theorem readdirCore_reads (d : Device) (p : String) (s : FsState) :
    (readdirCore d p s).2.1.reads = s.reads := by
  simp only [readdirCore]
  cases d.listFolders p with
  | error e => rfl
  | ok dnames =>
    simp only []
    cases d.listFiles p with
    | error e => simp [insertDirs_reads]
    | ok fnames => simp [insertFilesLoop_reads, insertDirs_reads]

theorem readdirCore_writes (d : Device) (p : String) (s : FsState) :
    (readdirCore d p s).2.1.writes = s.writes := by
  simp only [readdirCore]
  cases d.listFolders p with
  | error e => rfl
  | ok dnames =>
    simp only []
    cases d.listFiles p with
    | error e => simp [insertDirs_writes]
    | ok fnames => simp [insertFilesLoop_writes, insertDirs_writes]

theorem readdir_quiet (d : Device) (p : String) (s : FsState) (hq : d.events = quietEvents) :
    gphotofs_readdir d p s =
      ((readdirCore d p s).1, (readdirCore d p s).2.1,
       DevCall.waitEvent :: (readdirCore d p s).2.2) := by
  rw [gphotofs_readdir, checkEvents_quiet d s hq]
  simp [fatalEvent_gp_ok]

theorem getattr_quiet_ne_root (d : Device) (path : String) (s : FsState)
    (hq : d.events = quietEvents) (hroot : path ≠ "/") :
    gphotofs_getattr d path s =
      ((getattrLoop d path 2 s).1, (getattrLoop d path 2 s).2.1,
       (getattrLoop d path 2 s).2.2.1,
       DevCall.waitEvent :: (getattrLoop d path 2 s).2.2.2) := by
  rw [gphotofs_getattr, checkEvents_quiet d s hq]
  simp [fatalEvent_gp_ok, hroot]

/-- In the trace of a readdir core run with successful listings, exactly one
`listFolders` call on the listed directory occurs. -/
theorem readdirCore_trace_filter (d : Device) (p : String) (s : FsState)
    (dnames fnames : List String)
    (hdl : d.listFolders p = Except.ok dnames)
    (hfl : d.listFiles p = Except.ok fnames) :
    ((readdirCore d p s).2.2.filter (fun c => c = DevCall.listFolders p)).length = 1 := by
  simp only [readdirCore, hdl, hfl]
  have h := insertFilesLoop_trace_getInfo d p fnames (insertDirs d p dnames s)
  have hfilter : ((insertFilesLoop d p fnames (insertDirs d p dnames s)).2.2.filter
      (fun c => c = DevCall.listFolders p)) = [] := by
    rw [List.filter_eq_nil_iff]
    intro c hc
    obtain ⟨n, hn⟩ := h c hc
    subst hn
    simp
  simp [List.filter_cons, hfilter]

/-- On a miss that readdir cannot repair (the device listings of the parent
never produce the looked-up path), the getattr retry loop burns all its
fuel, reporting `-ENOENT` and issuing one parent listing per loop
iteration. -/
theorem getattrLoop_miss (d : Device) (path : String) (dnames fnames : List String)
    (hq : d.events = quietEvents)
    (hdl : d.listFolders (g_path_get_dirname path) = Except.ok dnames)
    (hfl : d.listFiles (g_path_get_dirname path) = Except.ok fnames)
    (hdn : ∀ n ∈ dnames, g_build_filename (g_path_get_dirname path) n ≠ path)
    (hfn : ∀ n ∈ fnames, g_build_filename (g_path_get_dirname path) n ≠ path)
    (hinfo : ∀ n ∈ fnames, ∃ i, d.getInfo (g_path_get_dirname path) n = Except.ok i) :
    ∀ (fuel : Nat) (s : FsState),
      tlookup s.files path = none → tlookup s.dirs path = none →
      (getattrLoop d path fuel s).1 = -ENOENT ∧
      ((getattrLoop d path fuel s).2.2.2.filter
        (fun c => c = DevCall.listFolders (g_path_get_dirname path))).length = fuel := by
  intro fuel
  induction fuel with
  | zero => intro s hf hd; exact ⟨rfl, rfl⟩
  | succ i ih =>
    intro s hf hd
    have hcore := readdirCore_miss d (g_path_get_dirname path) s path dnames fnames
      hdl hfl hdn hfn hinfo
    have hnext := ih (readdirCore d (g_path_get_dirname path) s).2.1
      (hcore.2.2.trans hf) (hcore.2.1.trans hd)
    have hcount := readdirCore_trace_filter d (g_path_get_dirname path) s dnames fnames hdl hfl
    rw [getattrLoop, hf, hd]
    simp only [readdir_quiet d _ s hq, hcore.1]
    simp only [ne_eq, not_true_eq_false, if_false, not_false_iff]
    refine ⟨hnext.1, ?_⟩
    simp only [List.filter_append, List.length_append, List.filter_cons]
    have hwe : ¬(DevCall.waitEvent = DevCall.listFolders (g_path_get_dirname path)) := by
      simp
    simp only [hwe, decide_eq_true_eq, if_neg hwe]
    simp [hcount, hnext.2]
    omega

/-! ## Claim C10 -/

/-- Claim C10: for every path, mode, uid and gid, the chmod and chown
handlers return success (0) while issuing no device call and leaving the
metadata cache, both open-file tables, and the device state completely
unchanged (the returned state is the input state and the device-call trace
is empty). -/
theorem C10_chmod_chown_noop (d : Device) (path : String) (mode uid gid : Nat)
    (s : FsState) :
    gphotofs_chmod d path mode s = (0, s, []) ∧
    gphotofs_chown d path uid gid s = (0, s, []) :=
  ⟨rfl, rfl⟩

/-! ## Claim C8 -/

/-- Claim C8: for every cache state (including completely empty), with the
event poll reporting no pending events, looking up the root path succeeds
and returns the synthesized Directory record (mode `S_IFDIR ||| 0o755`,
i.e. permission rwxr-xr-x, link count 2), and the state is returned
untouched — in particular the root path is not stored in either cache
mapping. -/
theorem C8_root_lookup (d : Device) (s : FsState) (h : d.events = quietEvents) :
    gphotofs_getattr d "/" s = (0, some (rootStat d), s, [DevCall.waitEvent]) ∧
    (rootStat d).st_mode = S_IFDIR ||| 493 ∧ (rootStat d).st_nlink = 2 := by
  refine ⟨?_, rfl, rfl⟩
  rw [gphotofs_getattr, checkEvents_quiet d s h]
  simp [fatalEvent_gp_ok, fatalEvent, GP_OK, GP_ERROR_IO_USB_FIND, GP_ERROR_MODEL_NOT_FOUND]

/-- Witness for C8 at a concrete device and the empty cache. -/
theorem C8_root_lookup_witness :
    gphotofs_getattr devNull "/" emptyState =
      (0, some (rootStat devNull), emptyState, [DevCall.waitEvent]) :=
  (C8_root_lookup devNull emptyState rfl).1

/-! ## Claim C7 -/

/-- Counterexample for C7: `GP_ERROR_FIXED_LIMIT_EXCEEDED` (-8) is a device
result code with no `case` label in the switch, and the translator maps it
to `-EINVAL`, not to "no error" (0) as the claim states for unmapped
codes. -/
theorem C7_unmapped_counterexample :
    GP_ERROR_FIXED_LIMIT_EXCEEDED ∉ gpMappedCodes ∧
    gpresultToErrno GP_ERROR_FIXED_LIMIT_EXCEEDED = -EINVAL ∧
    (-EINVAL : Int) ≠ 0 := by decide

/-- Claim C7 (amended): the error translator is a total, deterministic,
side-effect-free function over device result codes (it is a pure Lean
function); the success code `GP_OK` translates to "no error" (0), and every
unmapped code translates to `-EINVAL` (InvalidArgument), the switch
default. -/
theorem C7_translator :
    gpresultToErrno GP_OK = 0 ∧
    ∀ r : Int, r ∉ gpMappedCodes → gpresultToErrno r = -EINVAL := by
  refine ⟨by decide, ?_⟩
  intro r h
  rw [gpresultToErrno]
  have hnone : gpErrnoTable.find? (fun row => row.1 = r) = none := by
    apply List.find?_eq_none.mpr
    intro row hrow
    simp only [decide_eq_true_eq]
    intro heq
    exact h (by rw [← heq]; exact List.mem_map_of_mem _ hrow)
  rw [hnone]

/-- Witness for C7 at the concrete unmapped code `GP_ERROR_HAL` (-70). -/
theorem C7_translator_witness :
    GP_ERROR_HAL ∉ gpMappedCodes ∧ gpresultToErrno GP_ERROR_HAL = -EINVAL :=
  ⟨by decide, C7_translator.2 GP_ERROR_HAL (by decide)⟩

/-! ## Claim C3 -/

/-- Claim C3 is contradicted by the code: `gphotofs_mknod` stores the
result of `gp_camera_folder_put_file` and then ignores it, returning 0
unconditionally.  Against a device whose put fails with `GP_ERROR`, mknod
still issues the put (it is in the trace), reports success (0), and the
spec (sections 4.7 and 7) requires the translated error instead. -/
theorem C3_mknod_ignores_put_failure :
    devPutFail.putFile "/" "a.jpg" [99] = GP_ERROR ∧
    GP_ERROR ≠ GP_OK ∧
    gphotofs_mknod devPutFail "/a.jpg" emptyState =
      (0, emptyState, [DevCall.waitEvent, DevCall.putFile "/" "a.jpg" [99]]) := by decide

/-! ## Claim C1 -/

/-- Counterexample for C1: open `/a.jpg` WriteOnly twice from the empty
state, then release twice.  After the first release the handle is alive
with count 1 and its buffer retained (this half of the claim holds), but
the second release removes the entry with an empty device-call trace: no
delete-then-upload commit is invoked by release at all, contradicting both
"release ... first invokes the Write/Flush Strategy commit before removal"
and "the second release triggers exactly one flush-and-commit to the
device". -/
theorem C1_release_counterexample :
    (gphotofs_open devNull "/a.jpg" AccMode.wronly emptyState).1 = 0 ∧
    ((gphotofs_release devNull "/a.jpg"
        (gphotofs_open devNull "/a.jpg" AccMode.wronly
          (gphotofs_open devNull "/a.jpg" AccMode.wronly emptyState).2.1).2.1).2.2 = []) ∧
    ((tlookup (gphotofs_release devNull "/a.jpg"
        (gphotofs_open devNull "/a.jpg" AccMode.wronly
          (gphotofs_open devNull "/a.jpg" AccMode.wronly emptyState).2.1).2.1).2.1.writes
        "/a.jpg").map (fun of => of.count) = some 1) ∧
    ((gphotofs_release devNull "/a.jpg"
        (gphotofs_release devNull "/a.jpg"
          (gphotofs_open devNull "/a.jpg" AccMode.wronly
            (gphotofs_open devNull "/a.jpg" AccMode.wronly emptyState).2.1).2.1).2.1).2.2 = []) ∧
    (tlookup (gphotofs_release devNull "/a.jpg"
        (gphotofs_release devNull "/a.jpg"
          (gphotofs_open devNull "/a.jpg" AccMode.wronly
            (gphotofs_open devNull "/a.jpg" AccMode.wronly emptyState).2.1).2.1).2.1).2.1.writes
        "/a.jpg" = none) := by decide

/-- Claim C1 (amended): for every WriteOnly open-file table entry, the
release operation that brings its reference count from one to zero removes
the entry without invoking any device commit (its device-call trace is
empty); opening the same path WriteOnly twice then releasing once leaves
the handle and its buffer alive with count decremented; the
delete-then-upload commit of the assembled buffer is performed by the
separate flush operation, which issues exactly one device delete followed
by exactly one upload of the buffer. -/
theorem C1_release_and_flush (d : Device) (path : String) (of : OpenFile) (s : FsState)
    (hr : tlookup s.reads path = none)
    (hw : tlookup s.writes path = some of)
    (hwr : of.writing = true) :
    (of.count = 1 →
       (gphotofs_release d path s).1 = 0 ∧
       tlookup (gphotofs_release d path s).2.1.writes path = none ∧
       (gphotofs_release d path s).2.2 = []) ∧
    (2 ≤ of.count →
       (gphotofs_release d path s).1 = 0 ∧
       tlookup (gphotofs_release d path s).2.1.writes path =
         some { of with count := of.count - 1 } ∧
       (gphotofs_release d path s).2.2 = []) ∧
    ((gphotofs_flush d path s).2.2 =
      (gphotofs_check_events d s).2.2 ++
      [DevCall.deleteFile of.destdir of.destname,
       DevCall.putFile of.destdir of.destname of.buf]) := by
  have hrel : gphotofs_release d path s = releaseFound path of false s := by
    rw [gphotofs_release, hr, hw]
  refine ⟨?_, ?_, ?_⟩
  · intro h1
    rw [hrel]
    simp only [releaseFound, h1]
    simp [hwr, tlookup_tremove, tlookup_treplace]
  · intro h2
    rw [hrel]
    have hc : ¬(of.count - 1 = 0) := by omega
    simp only [releaseFound, if_neg hc]
    simp [tlookup_treplace]
  · rw [gphotofs_flush, hw]
    simp only [hwr, if_true]
    by_cases hres : d.putFile of.destdir of.destname of.buf < 0 <;> simp [hres]

/-- Witness for C1 (amended) at the concrete one-entry write state. -/
theorem C1_release_and_flush_witness :
    (gphotofs_release devNull "/a.jpg" stC1).1 = 0 ∧
    tlookup (gphotofs_release devNull "/a.jpg" stC1).2.1.writes "/a.jpg" = none ∧
    (gphotofs_release devNull "/a.jpg" stC1).2.2 = [] :=
  (C1_release_and_flush devNull "/a.jpg" wOpen stC1 (by decide) (by decide) (by decide)).1
    (by decide)

/-! ## Claim C6 -/

/-- Claim C6: in the whole-file fallback of read (entered when the ranged
device read reports `GP_ERROR_NOT_SUPPORTED`), with the file contents
either already fetched into the handle or fetched now by the fallback: for
every offset at or past the buffer end, read returns zero bytes and no
error (result 0); for every offset inside the buffer, the returned bytes
are the slice starting at `offset` of length
`if offset + length > size then size - offset else length`, which never
extends past the buffer end. -/
theorem C6_read_fallback (d : Device) (path : String) (size offset : Nat) (s : FsState)
    (of : OpenFile) (content : List Nat)
    (hof : tlookup s.reads path = some of)
    (hns : d.fileRead of.destdir of.destname offset size =
             Except.error GP_ERROR_NOT_SUPPORTED)
    (hfile : of.file = some content ∨
             (of.file = none ∧ d.fileGet of.destdir of.destname = Except.ok content)) :
    (content.length ≤ offset →
       ∃ s2 tr, gphotofs_read d path size offset s = some (0, [], s2, tr)) ∧
    (offset < content.length →
       ∃ s2 tr,
         gphotofs_read d path size offset s =
           some (((if offset + size > content.length then content.length - offset
                   else size : Nat) : Int),
                 (content.drop offset).take
                   (if offset + size > content.length then content.length - offset
                    else size),
                 s2, tr) ∧
         offset + (if offset + size > content.length then content.length - offset
                   else size) ≤ content.length) := by
  have hread : ∀ P : Option (Int × List Nat × FsState × List DevCall) → Prop,
      (∀ fetch : OpenFile × FsState × List DevCall,
        fetch.1.file.getD [] = content →
        P (if offset < content.length then
             some (((if offset + size > content.length then content.length - offset
                     else size : Nat) : Int),
                   (content.drop offset).take
                     (if offset + size > content.length then content.length - offset
                      else size),
                   fetch.2.1,
                   DevCall.fileRead of.destdir of.destname offset size :: fetch.2.2)
           else
             some (0, [], fetch.2.1,
                   DevCall.fileRead of.destdir of.destname offset size :: fetch.2.2))) →
      P (gphotofs_read d path size offset s) := by
    intro P hP
    rw [gphotofs_read, hof]
    simp only [hns]
    have hcond : ¬(GP_ERROR_NOT_SUPPORTED ≠ GP_ERROR_NOT_SUPPORTED) := by simp
    rw [if_neg hcond]
    rcases hfile with hsome | ⟨hnone, hget⟩
    · have : (match of.file with
              | some _ => (of, s, ([] : List DevCall))
              | none =>
                match d.fileGet of.destdir of.destname with
                | Except.ok c =>
                  ({ of with file := some c },
                   { s with reads := treplace s.reads path { of with file := some c } },
                   [DevCall.fileGet of.destdir of.destname])
                | Except.error _ =>
                  ({ of with file := some [] },
                   { s with reads := treplace s.reads path { of with file := some [] } },
                   [DevCall.fileGet of.destdir of.destname])) = (of, s, []) := by
        rw [hsome]
      rw [this]
      have hc : of.file.getD [] = content := by rw [hsome]; rfl
      have := hP (of, s, []) hc
      simpa [hc] using this
    · have : (match of.file with
              | some _ => (of, s, ([] : List DevCall))
              | none =>
                match d.fileGet of.destdir of.destname with
                | Except.ok c =>
                  ({ of with file := some c },
                   { s with reads := treplace s.reads path { of with file := some c } },
                   [DevCall.fileGet of.destdir of.destname])
                | Except.error _ =>
                  ({ of with file := some [] },
                   { s with reads := treplace s.reads path { of with file := some [] } },
                   [DevCall.fileGet of.destdir of.destname])) =
            ({ of with file := some content },
             { s with reads := treplace s.reads path { of with file := some content } },
             [DevCall.fileGet of.destdir of.destname]) := by
        rw [hnone, hget]
      rw [this]
      have hc : ({ of with file := some content } : OpenFile).file.getD [] = content := rfl
      have := hP ({ of with file := some content },
                  { s with reads := treplace s.reads path { of with file := some content } },
                  [DevCall.fileGet of.destdir of.destname]) hc
      simpa [hc] using this
  constructor
  · intro hge
    refine hread (fun o => ∃ s2 tr, o = some (0, [], s2, tr)) ?_
    intro fetch hc
    rw [if_neg (by omega)]
    exact ⟨fetch.2.1, _, rfl⟩
  · intro hlt
    refine hread (fun o => ∃ s2 tr,
      o = some (((if offset + size > content.length then content.length - offset
                  else size : Nat) : Int),
                (content.drop offset).take
                  (if offset + size > content.length then content.length - offset
                   else size),
                s2, tr) ∧
      offset + (if offset + size > content.length then content.length - offset
                else size) ≤ content.length) ?_
    intro fetch hc
    rw [if_pos hlt]
    refine ⟨fetch.2.1, _, rfl, ?_⟩
    by_cases hbig : offset + size > content.length
    · rw [if_pos hbig]; omega
    · rw [if_neg hbig]; omega

/-- Witness for C6 at a concrete fetched handle, both inside (offset 1,
length 2 over a 4-byte buffer) and past the end (offset 9). -/
theorem C6_read_fallback_witness :
    (∃ s2 tr, gphotofs_read devNull "/a.jpg" 2 9 stRead = some (0, [], s2, tr)) ∧
    (∃ s2 tr,
       gphotofs_read devNull "/a.jpg" 2 1 stRead =
         some (((if 1 + 2 > List.length [1, 2, 3, 4] then List.length [1, 2, 3, 4] - 1
                 else 2 : Nat) : Int),
               (List.drop 1 [1, 2, 3, 4]).take
                 (if 1 + 2 > List.length [1, 2, 3, 4] then List.length [1, 2, 3, 4] - 1
                  else 2),
               s2, tr) ∧
       1 + (if 1 + 2 > List.length [1, 2, 3, 4] then List.length [1, 2, 3, 4] - 1
            else 2) ≤ List.length [1, 2, 3, 4]) :=
  ⟨(C6_read_fallback devNull "/a.jpg" 2 9 stRead ofRead [1, 2, 3, 4] (by decide) rfl
      (Or.inl rfl)).1 (by decide),
   (C6_read_fallback devNull "/a.jpg" 2 1 stRead ofRead [1, 2, 3, 4] (by decide) rfl
      (Or.inl rfl)).2 (by decide)⟩

/-! ## Claim C2 -/

/-- Counterexample for C2: against a device that accepts the upload (and
whose listing afterwards reports the uploaded placeholder at size 1),
`mknod("/a.jpg")` from the empty state succeeds but leaves the file cache
empty — nothing is mirrored into the metadata cache — and the subsequent
lookup returns a record of size 1 (the placeholder byte), not 0. -/
theorem C2_mknod_counterexample :
    (gphotofs_mknod devSeed "/a.jpg" emptyState).1 = 0 ∧
    (gphotofs_mknod devSeed "/a.jpg" emptyState).2.1.files = [] ∧
    ((gphotofs_getattr devSeed "/a.jpg"
        (gphotofs_mknod devSeed "/a.jpg" emptyState).2.1).2.1.map
      (fun st => st.st_size)) = some 1 ∧
    some (1 : Nat) ≠ some 0 := by decide

/-- Claim C2 (amended): `make_node(path)` uploads a one-byte placeholder
(the byte 99) to the device and reports success while leaving the whole
adapter state unchanged — nothing is mirrored into the metadata cache; a
subsequent `lookup(path)` misses the cache, re-lists the parent from the
device, and returns the attribute record built from the device-reported
info (for the placeholder, size 1), not a size-0 record. -/
theorem C2_mknod_behavior (d : Device) (path : String) (s : FsState) (i : CameraFileInfo)
    (hq : d.events = quietEvents)
    (hroot : path ≠ "/")
    (hbuild : g_build_filename (g_path_get_dirname path) (g_path_get_basename path) = path)
    (hdl : d.listFolders (g_path_get_dirname path) = Except.ok [])
    (hfl : d.listFiles (g_path_get_dirname path) = Except.ok [g_path_get_basename path])
    (hgi : d.getInfo (g_path_get_dirname path) (g_path_get_basename path) = Except.ok i)
    (hmf : tlookup s.files path = none)
    (hmd : tlookup s.dirs path = none) :
    gphotofs_mknod d path s =
      (0, s, [DevCall.waitEvent,
              DevCall.putFile (g_path_get_dirname path) (g_path_get_basename path) [99]]) ∧
    (gphotofs_getattr d path s).1 = 0 ∧
    (gphotofs_getattr d path s).2.1 = some (fileStatOf d i) := by
  have hev := checkEvents_quiet d s hq
  have hcore : readdirCore d (g_path_get_dirname path) s =
      (0, { s with files := treplace s.files path (fileStatOf d i) },
       [DevCall.listFolders (g_path_get_dirname path),
        DevCall.listFiles (g_path_get_dirname path),
        DevCall.getInfo (g_path_get_dirname path) (g_path_get_basename path)]) := by
    rw [readdirCore, hdl, hfl]
    simp [insertDirs, insertFilesLoop, hgi, hbuild]
  have hrd : gphotofs_readdir d (g_path_get_dirname path) s =
      (0, { s with files := treplace s.files path (fileStatOf d i) },
       [DevCall.waitEvent,
        DevCall.listFolders (g_path_get_dirname path),
        DevCall.listFiles (g_path_get_dirname path),
        DevCall.getInfo (g_path_get_dirname path) (g_path_get_basename path)]) := by
    rw [gphotofs_readdir, hev]
    simp [fatalEvent_gp_ok, hcore]
  have hloop : (getattrLoop d path 2 s).1 = 0 ∧
      (getattrLoop d path 2 s).2.1 = some (fileStatOf d i) := by
    have h1 : getattrLoop d path 2 s =
        (let r := gphotofs_readdir d (g_path_get_dirname path) s
         if r.1 ≠ 0 then (r.1, none, r.2.1, r.2.2)
         else
           let r2 := getattrLoop d path 1 r.2.1
           (r2.1, r2.2.1, r2.2.2.1, r.2.2 ++ r2.2.2.2)) := by
      rw [getattrLoop, hmf, hmd]
    rw [h1, hrd]
    simp only [ne_eq, not_true_eq_false, if_false, not_false_iff]
    have h2 : (getattrLoop d path 1
        { s with files := treplace s.files path (fileStatOf d i) }).2.1 =
        some (fileStatOf d i) ∧
        (getattrLoop d path 1
        { s with files := treplace s.files path (fileStatOf d i) }).1 = 0 := by
      rw [getattrLoop]
      simp [tlookup_treplace]
    simp [h2.1, h2.2]
  refine ⟨?_, ?_, ?_⟩
  · rw [gphotofs_mknod, hev]
    simp
  · rw [gphotofs_getattr, hev]
    simp [fatalEvent_gp_ok, hroot, hloop.1]
  · rw [gphotofs_getattr, hev]
    simp [fatalEvent_gp_ok, hroot, hloop.2]

/-- Witness for C2 (amended) at the concrete seeded device. -/
theorem C2_mknod_behavior_witness :
    gphotofs_mknod devSeed "/a.jpg" emptyState =
      (0, emptyState, [DevCall.waitEvent, DevCall.putFile "/" "a.jpg" [99]]) ∧
    (gphotofs_getattr devSeed "/a.jpg" emptyState).2.1 =
      some (fileStatOf devSeed
        { hasPermissions := false, permDelete := false, size := 1, mtime := 0 }) := by
  have h := C2_mknod_behavior devSeed "/a.jpg" emptyState
    { hasPermissions := false, permDelete := false, size := 1, mtime := 0 }
    rfl (by decide) (by decide) rfl rfl rfl rfl rfl
  exact ⟨h.1.trans (by decide), h.2.2⟩

/-! ## Claim C9 -/

/-- Counterexample for C9: against a device whose event poll fails with
`GP_ERROR_IO_USB_FIND` (device unreachable), mkdir still issues its own
`gp_camera_folder_make_dir` call and returns that call's (successful)
result 0 — it neither returns the translated poll error (negative ENXIO) nor
refrains from its own device call. -/
theorem C9_mkdir_counterexample :
    fatalEvent (gphotofs_check_events devFatal emptyState).1 = true ∧
    (gphotofs_mkdir devFatal "/d" emptyState).1 = 0 ∧
    gpresultToErrno GP_ERROR_IO_USB_FIND = - ENXIO ∧
    (0 : Int) ≠ - ENXIO ∧
    DevCall.makeDir "/" "d" ∈ (gphotofs_mkdir devFatal "/d" emptyState).2.2 := by decide

/-- Claim C9 (amended): every one of the seven operations polls device
events at its start, but only directory-listing, attribute-lookup and open
short-circuit with the translated error (and no device call of their own)
when the poll reports a connectivity-fatal condition; mkdir, rmdir, mknod
and delete discard the poll result and always proceed to issue their own
device call (delete provided no read handle blocks it). -/
theorem C9_event_policy (d : Device) (p : String) (s : FsState) :
    (fatalEvent (gphotofs_check_events d s).1 = true →
      gphotofs_readdir d p s =
        (gpresultToErrno (gphotofs_check_events d s).1,
         (gphotofs_check_events d s).2.1, (gphotofs_check_events d s).2.2) ∧
      gphotofs_getattr d p s =
        (gpresultToErrno (gphotofs_check_events d s).1, none,
         (gphotofs_check_events d s).2.1, (gphotofs_check_events d s).2.2) ∧
      (∀ m : AccMode, gphotofs_open d p m s =
        (gpresultToErrno (gphotofs_check_events d s).1,
         (gphotofs_check_events d s).2.1, (gphotofs_check_events d s).2.2))) ∧
    ((gphotofs_mkdir d p s).2.2 =
       (gphotofs_check_events d s).2.2 ++
       [DevCall.makeDir (g_path_get_dirname p) (g_path_get_basename p)]) ∧
    ((gphotofs_rmdir d p s).2.2 =
       (gphotofs_check_events d s).2.2 ++
       [DevCall.removeDir (g_path_get_dirname p) (g_path_get_basename p)]) ∧
    ((gphotofs_mknod d p s).2.2 =
       (gphotofs_check_events d s).2.2 ++
       [DevCall.putFile (g_path_get_dirname p) (g_path_get_basename p) [99]]) ∧
    (tlookup (gphotofs_check_events d s).2.1.reads p = none →
      (gphotofs_unlink d p s).2.2 =
        (gphotofs_check_events d s).2.2 ++
        [DevCall.deleteFile (g_path_get_dirname p) (g_path_get_basename p)]) := by
  refine ⟨?_, ?_, ?_, ?_, ?_⟩
  · intro hfatal
    refine ⟨?_, ?_, ?_⟩
    · rw [gphotofs_readdir, hfatal]
      simp
    · rw [gphotofs_getattr, hfatal]
      simp
    · intro m
      rw [gphotofs_open, hfatal]
      simp
  · rw [gphotofs_mkdir]
    by_cases hr : d.makeDir (g_path_get_dirname p) (g_path_get_basename p) ≠ 0 <;>
      simp [hr]
  · rw [gphotofs_rmdir]
    by_cases hr : d.removeDir (g_path_get_dirname p) (g_path_get_basename p) ≠ 0 <;>
      simp [hr]
  · rw [gphotofs_mknod]
  · intro hnone
    rw [gphotofs_unlink, hnone]
    by_cases hr : d.deleteFile (g_path_get_dirname p) (g_path_get_basename p) ≠ 0 <;>
      simp [hr]

/-- Witness for C9 (amended): the short-circuit conjunct at the fatal
device, and the mkdir always-issues conjunct at the same device. -/
theorem C9_event_policy_witness :
    gphotofs_readdir devFatal "/" emptyState =
      (gpresultToErrno (gphotofs_check_events devFatal emptyState).1,
       (gphotofs_check_events devFatal emptyState).2.1,
       (gphotofs_check_events devFatal emptyState).2.2) ∧
    (gphotofs_mkdir devFatal "/d" emptyState).2.2 =
      (gphotofs_check_events devFatal emptyState).2.2 ++ [DevCall.makeDir "/" "d"] :=
  ⟨((C9_event_policy devFatal "/" emptyState).1 (by decide)).1,
   ((C9_event_policy devFatal "/d" emptyState).2.1).trans (by decide)⟩

/-! ## Claim C4 -/

/-- Claim C4: unlink fails with `-EBUSY` while a ReadOnly handle for the
path exists; with no ReadOnly handle it issues the device delete even if
WriteOnly handles are open (no hypothesis restricts the write table), and
on success removes the path from the file cache, so a subsequent lookup
(against the device that no longer lists the file) fails with `-ENOENT`.
The listing hypotheses say exactly that the parent listing no longer
produces the deleted path. -/
theorem C4_unlink_busy_or_delete (d : Device) (path : String) (s : FsState)
    (dnames fnames : List String)
    (hq : d.events = quietEvents)
    (hroot : path ≠ "/")
    (hdl : d.listFolders (g_path_get_dirname path) = Except.ok dnames)
    (hfl : d.listFiles (g_path_get_dirname path) = Except.ok fnames)
    (hdn : ∀ n ∈ dnames, g_build_filename (g_path_get_dirname path) n ≠ path)
    (hfn : ∀ n ∈ fnames, g_build_filename (g_path_get_dirname path) n ≠ path)
    (hinfo : ∀ n ∈ fnames, ∃ i, d.getInfo (g_path_get_dirname path) n = Except.ok i)
    (hmd : tlookup s.dirs path = none) :
    (∀ of, tlookup s.reads path = some of →
      gphotofs_unlink d path s = (-EBUSY, s, [DevCall.waitEvent])) ∧
    (tlookup s.reads path = none →
     d.deleteFile (g_path_get_dirname path) (g_path_get_basename path) = GP_OK →
      gphotofs_unlink d path s =
        (0, { s with files := tremove s.files path },
         [DevCall.waitEvent,
          DevCall.deleteFile (g_path_get_dirname path) (g_path_get_basename path)]) ∧
      tlookup (gphotofs_unlink d path s).2.1.files path = none ∧
      (gphotofs_getattr d path (gphotofs_unlink d path s).2.1).1 = -ENOENT) := by
  have hev := checkEvents_quiet d s hq
  constructor
  · intro of hof
    rw [gphotofs_unlink, hev]
    simp only [hof]
  · intro hnone hdel
    have huneq : gphotofs_unlink d path s =
        (0, { s with files := tremove s.files path },
         [DevCall.waitEvent,
          DevCall.deleteFile (g_path_get_dirname path) (g_path_get_basename path)]) := by
      rw [gphotofs_unlink, hev]
      simp only [hnone, hdel]
      simp [GP_OK]
    refine ⟨huneq, ?_, ?_⟩
    · rw [huneq]
      simp [tlookup_tremove]
    · rw [huneq]
      have hf2 : tlookup ({ s with files := tremove s.files path } : FsState).files path
          = none := by
        simp [tlookup_tremove]
      have hloop := getattrLoop_miss d path dnames fnames hq hdl hfl hdn hfn hinfo 2
        { s with files := tremove s.files path } hf2 hmd
      rw [getattr_quiet_ne_root d path _ hq hroot]
      exact hloop.1

/-- A file-cache stat record for the witness state. -/
def aStat : StatRec :=
  { st_mode := S_IFREG ||| 420, st_nlink := 1, st_uid := 1000, st_gid := 1000,
    st_size := 4, st_blocks := 1, st_mtime := 0 }

/-- A state holding only a cached file record for `/a.jpg` (no open
handles). -/
def stFiles : FsState := { dirs := [], files := [("/a.jpg", aStat)], reads := [], writes := [] }

/-- Witness for C4: the busy half at a state with an open read handle, the
delete half at a state with only a cached file record. -/
theorem C4_unlink_witness :
    gphotofs_unlink devNull "/a.jpg" stRead = (-EBUSY, stRead, [DevCall.waitEvent]) ∧
    (gphotofs_unlink devNull "/a.jpg" stFiles).1 = 0 ∧
    tlookup (gphotofs_unlink devNull "/a.jpg" stFiles).2.1.files "/a.jpg" = none ∧
    (gphotofs_getattr devNull "/a.jpg"
      (gphotofs_unlink devNull "/a.jpg" stFiles).2.1).1 = -ENOENT := by
  have hbusy := (C4_unlink_busy_or_delete devNull "/a.jpg" stRead [] [] rfl (by decide)
    rfl rfl (by simp) (by simp) (by simp) rfl).1 ofRead (by decide)
  have hdel := (C4_unlink_busy_or_delete devNull "/a.jpg" stFiles [] [] rfl (by decide)
    rfl rfl (by simp) (by simp) (by simp) rfl).2 rfl rfl
  refine ⟨hbusy, ?_, hdel.2.1, hdel.2.2⟩
  rw [hdel.1]

/-! ## Claim C5 -/

/-- Counterexample for C5: from the empty cache, looking up `/a.jpg`
against a device whose root listing is empty issues the parent listing
twice, not "exactly once" as the claim states, before failing with
`-ENOENT`. -/
theorem C5_two_listings_counterexample :
    (gphotofs_getattr devNull "/a.jpg" emptyState).1 = -ENOENT ∧
    ((gphotofs_getattr devNull "/a.jpg" emptyState).2.2.2.filter
      (fun c => c = DevCall.listFolders "/")).length = 2 ∧
    (2 : Nat) ≠ 1 := by decide

/-- Claim C5 (amended): for every path other than `/` absent from both
cache mappings, when the parent listings succeed but never produce the
path, lookup lists the parent, retries the cache lookup once more, lists
the parent a second time, and only then fails with "not found" — two
parent listings in total on a persistent miss, not one. -/
theorem C5_lookup_two_listings (d : Device) (path : String) (s : FsState)
    (dnames fnames : List String)
    (hq : d.events = quietEvents)
    (hroot : path ≠ "/")
    (hdl : d.listFolders (g_path_get_dirname path) = Except.ok dnames)
    (hfl : d.listFiles (g_path_get_dirname path) = Except.ok fnames)
    (hdn : ∀ n ∈ dnames, g_build_filename (g_path_get_dirname path) n ≠ path)
    (hfn : ∀ n ∈ fnames, g_build_filename (g_path_get_dirname path) n ≠ path)
    (hinfo : ∀ n ∈ fnames, ∃ i, d.getInfo (g_path_get_dirname path) n = Except.ok i)
    (hmf : tlookup s.files path = none)
    (hmd : tlookup s.dirs path = none) :
    (gphotofs_getattr d path s).1 = -ENOENT ∧
    ((gphotofs_getattr d path s).2.2.2.filter
      (fun c => c = DevCall.listFolders (g_path_get_dirname path))).length = 2 := by
  have hloop := getattrLoop_miss d path dnames fnames hq hdl hfl hdn hfn hinfo 2 s hmf hmd
  rw [getattr_quiet_ne_root d path s hq hroot]
  refine ⟨hloop.1, ?_⟩
  simp only [List.filter_cons]
  have hwe : ¬(DevCall.waitEvent = DevCall.listFolders (g_path_get_dirname path)) := by
    simp
  simp only [decide_eq_true_eq, if_neg hwe]
  exact hloop.2

/-- Witness for C5 (amended) at the concrete empty-listing device and the
empty cache. -/
theorem C5_lookup_two_listings_witness :
    (gphotofs_getattr devNull "/a.jpg" emptyState).1 = -ENOENT ∧
    ((gphotofs_getattr devNull "/a.jpg" emptyState).2.2.2.filter
      (fun c => c = DevCall.listFolders (g_path_get_dirname "/a.jpg"))).length = 2 :=
  C5_lookup_two_listings devNull "/a.jpg" emptyState [] [] rfl (by decide) rfl rfl
    (by simp) (by simp) (by simp) rfl rfl

end Gphotofs
